import Mathlib

/-!
Verification of the ESG calculation engine
(src/services/esgCalculations.ts and the grade utility of the theme module).

The engine is embedded shallowly:
JavaScript numbers are modelled as rationals where the code only compares,
counts and averages (ratings, timestamps, confidences), and as reals where
the exponential recency decay enters (score aggregation).  The implicit
wall clock of the code (calls to Date.now via new Date()) is made an
explicit parameter `now`, measured in milliseconds, and the implicit
random source (Math.random in the history builder) is made an explicit
stream `rand : Nat -> Rat`, the k-th call of Math.random returning
`rand k`.  Fallible or optional record fields are Option values, and the
falsy-default idiom `x || d` of JavaScript is modelled by helpers that
treat 0 and the empty string as falsy, exactly as the source does.
-/

open scoped Classical

/-- JavaScript `x || d` for an optional number: `undefined` and `0` are falsy. -/
def jsOrQ (o : Option ℚ) (d : ℚ) : ℚ :=
  match o with
  | none => d
  | some v => if v = 0 then d else v

/-- JavaScript `s || d` for a string: only the empty string is falsy. -/
def jsOrS (s : String) (d : String) : String :=
  if s = "" then d else s

/-- JavaScript `s || d` for an optional string: `undefined` and `""` are falsy. -/
def jsOrOS (o : Option String) (d : String) : String :=
  match o with
  | none => d
  | some s => if s = "" then d else s

/-- JavaScript `a || b` where both sides are optional strings. -/
def jsOrOO (a b : Option String) : Option String :=
  match a with
  | none => b
  | some s => if s = "" then b else some s

/-- Lower-casing of a string, character by character (String.toLowerCase). -/
def lowerStr (s : String) : String := String.mk (s.data.map Char.toLower)

/-- Whether `pre` is a prefix of `l`, on characters. -/
def charsPrefix : List Char → List Char → Bool
  | [], _ => true
  | _ :: _, [] => false
  | a :: as, b :: bs => a == b && charsPrefix as bs

/-- Whether `needle` occurs contiguously inside `hay`, on characters. -/
def charsSub (needle : List Char) : List Char → Bool
  | [] => charsPrefix needle []
  | c :: rest => charsPrefix needle (c :: rest) || charsSub needle rest

/-- JavaScript `hay.includes(needle)` on strings. -/
def strIncludes (hay needle : String) : Bool :=
  charsSub needle.data hay.data

/-- Replacement of every maximal whitespace run by a single dash
(JavaScript `replace(/\s+/g, the dash)`); the flag records whether the
previous character was whitespace. -/
def squashWs : Bool → List Char → List Char
  | _, [] => []
  | prevWs, c :: rest =>
      if c.isWhitespace then
        (if prevWs then [] else [ '-' ]) ++ squashWs true rest
      else
        c :: squashWs false rest

/-- String form of `squashWs`, starting outside a whitespace run. -/
def replaceWsDash (s : String) : String := String.mk (squashWs false s.data)

/-- Validator sub-record of a claim.  The first six fields are the declared
interface; the remaining optional fields model the dynamic accesses the
history builder performs through `as any`. -/
structure Validator where
  name : String
  role : String
  rating : ℚ
  statement : String
  verified : Bool
  organization : String
  linkedinUrl : Option String
  twitterUrl : Option String
  websiteUrl : Option String
  githubUrl : Option String
  expertise : Option (List String)
  yearsExperience : Option ℤ
deriving DecidableEq

/-- Claim record, restricted to the fields the calculation engine reads.
`createdAt` is a millisecond timestamp. -/
structure Claim where
  id : ℤ
  subject : String
  aspect : Option String
  score : Option ℚ
  stars : Option ℚ
  confidence : Option ℚ
  createdAt : ℚ
  statement : Option String
  author : Option String
  curator : Option String
  sourceURI : Option String
  validators : Option (List Validator)
deriving DecidableEq

/-- One entry of the validation history. -/
structure ValidationEntry where
  id : String
  validatorName : String
  validatorRole : String
  organization : String
  rating : ℚ
  statement : String
  verified : Bool
  timestamp : ℚ
  profileImage : Option String
  linkedinUrl : Option String
  twitterUrl : Option String
  websiteUrl : Option String
  email : Option String
  expertise : Option (List String)
  yearsExperience : Option ℤ
deriving DecidableEq

/-- Output record of calculateValidationMetrics. -/
structure ValidationMetrics where
  totalValidations : ℕ
  endorsements : ℕ
  rejections : ℕ
  averageRating : ℚ
  endorsementRate : ℚ
  consensusPercentage : ℚ
  verifiedRate : ℚ
  validationHistory : List ValidationEntry
deriving DecidableEq

/-- Keyword lists of ESG_ASPECT_MAPPING, environmental pillar. -/
def envKeywords : List String :=
  ["environmental", "climate", "sustainability", "carbon", "energy",
   "renewable", "emissions", "green"]

/-- Keyword lists of ESG_ASPECT_MAPPING, social pillar. -/
def socKeywords : List String :=
  ["social", "labor", "community", "diversity", "human rights",
   "employee", "workplace", "safety"]

/-- Keyword lists of ESG_ASPECT_MAPPING, governance pillar. -/
def govKeywords : List String :=
  ["governance", "leadership", "transparency", "ethics", "compliance",
   "board", "audit", "risk"]

/-- Ratings collected by calculateValidationMetrics: the claim star rating
when present and positive, then every validator rating that is positive,
claim by claim in order. -/
def collectRatings (claims : List Claim) : List ℚ :=
  claims.flatMap fun c =>
    (match c.stars with
     | some s => if 0 < s then [s] else []
     | none => []) ++
    ((c.validators.getD []).filter (fun v => 0 < v.rating)).map (fun v => v.rating)

/-- Expertise list generated from a validator role (generateExpertise). -/
def generateExpertise (role : String) : List String :=
  if role = "ESG Analyst" then
    ["ESG Assessment", "Sustainability Reporting", "Risk Analysis"]
  else if role = "Sustainability Expert" then
    ["Environmental Impact", "Carbon Footprint", "Green Technology"]
  else if role = "Corporate Ethics" then
    ["Business Ethics", "Compliance", "Governance"]
  else if role = "Climate Policy Expert" then
    ["Climate Change", "Policy Analysis", "Environmental Law"]
  else if role = "Tech Sustainability Analyst" then
    ["Tech Innovation", "Digital Sustainability", "Data Analytics"]
  else
    ["ESG Research", "Corporate Analysis", "Sustainability"]

/-- History entry built for a claim whose own star rating is positive;
`k` is the index of the Math.random call used for yearsExperience. -/
def mkClaimEntry (rand : ℕ → ℚ) (k : ℕ) (c : Claim) : ValidationEntry :=
  let validatorName := jsOrOS c.author "Unknown Validator"
  { id := "claim-" ++ toString c.id
    validatorName := validatorName
    validatorRole := "Lead ESG Analyst"
    organization := jsOrOS c.curator "ESG Rating Agency"
    rating := c.stars.getD 0
    statement := c.statement.getD ""
    verified := true
    timestamp := c.createdAt
    profileImage := none
    linkedinUrl :=
      some ("https://linkedin.com/in/" ++ replaceWsDash (lowerStr validatorName))
    twitterUrl := none
    websiteUrl := none
    email := none
    expertise :=
      some ["ESG Assessment", "Sustainability Reporting", "Corporate Governance"]
    yearsExperience := some (⌊rand k * 10⌋ + 5) }

/-- History entry built for the `idx`-th validator of claim `c`, with the
already-resolved yearsExperience value `ye`. -/
def mkValidatorEntry (c : Claim) (idx : ℕ) (v : Validator) (ye : ℤ) :
    ValidationEntry :=
  { id := "validator-" ++ toString c.id ++ "-" ++ toString idx
    validatorName := v.name
    validatorRole := v.role
    organization := jsOrS v.organization ""
    rating := v.rating
    statement := v.statement
    verified := v.verified
    timestamp := c.createdAt
    profileImage := none
    linkedinUrl := v.linkedinUrl
    twitterUrl := v.twitterUrl
    websiteUrl := jsOrOO v.websiteUrl v.githubUrl
    email := none
    expertise :=
      some (match v.expertise with
            | some e => e
            | none => generateExpertise v.role)
    yearsExperience := some ye }

/-- History entries for a validator list.  A validator without a truthy
yearsExperience consumes the next Math.random value; the pair returned is
the entry list together with the next unused random index. -/
def validatorEntries (rand : ℕ → ℚ) (c : Claim) :
    ℕ → ℕ → List Validator → List ValidationEntry × ℕ
  | k, _, [] => ([], k)
  | k, idx, v :: vs =>
      let yk : ℤ × ℕ :=
        match v.yearsExperience with
        | some y => if y = 0 then (⌊rand k * 15⌋ + 3, k + 1) else (y, k)
        | none => (⌊rand k * 15⌋ + 3, k + 1)
      let rest := validatorEntries rand c yk.2 (idx + 1) vs
      (mkValidatorEntry c idx v yk.1 :: rest.1, rest.2)

/-- Unsorted validation history: per claim, a main entry when the claim
star rating is truthy and positive, then the validator entries. -/
def historyEntries (rand : ℕ → ℚ) : ℕ → List Claim → List ValidationEntry
  | _, [] => []
  | k, c :: cs =>
      let starsPos : Bool :=
        match c.stars with
        | some s => decide (0 < s)
        | none => false
      let mainK : List ValidationEntry × ℕ :=
        if starsPos then ([mkClaimEntry rand k c], k + 1) else ([], k)
      let ves := validatorEntries rand c mainK.2 0 (c.validators.getD [])
      mainK.1 ++ ves.1 ++ historyEntries rand ves.2 cs

/-- Stable insertion of an entry into a list already sorted by descending
timestamp: the entry passes over strictly newer entries only. -/
def insertByTs (e : ValidationEntry) : List ValidationEntry → List ValidationEntry
  | [] => [e]
  | x :: xs =>
      if e.timestamp < x.timestamp then x :: insertByTs e xs else e :: x :: xs

/-- Stable sort by descending timestamp, the comparator of the source
being (a, b) => b.timestamp - a.timestamp. -/
def sortByTsDesc : List ValidationEntry → List ValidationEntry
  | [] => []
  | x :: xs => insertByTs x (sortByTsDesc xs)

/-- calculateValidationMetrics of the source, with the Math.random stream
explicit. -/
def calculateValidationMetrics (rand : ℕ → ℚ) (claims : List Claim) :
    ValidationMetrics :=
  let allRatings := collectRatings claims
  if allRatings.length = 0 then
    { totalValidations := 0, endorsements := 0, rejections := 0
      averageRating := 0, endorsementRate := 0, consensusPercentage := 0
      verifiedRate := 0, validationHistory := [] }
  else
    let totalValidations := allRatings.length
    let endorsements := (allRatings.filter (fun r => 4 ≤ r)).length
    let rejections := (allRatings.filter (fun r => r ≤ 2)).length
    let totalStars := allRatings.sum
    let averageRating := totalStars / totalValidations
    let endorsementRate := ((endorsements : ℚ) / totalValidations) * 100
    let consensusCount :=
      (allRatings.filter (fun r => |r - averageRating| ≤ 1)).length
    let consensusPercentage := ((consensusCount : ℚ) / totalValidations) * 100
    let allValidators := claims.flatMap (fun c => c.validators.getD [])
    let verifiedValidators := (allValidators.filter (fun v => v.verified)).length
    let verifiedRate :=
      if 0 < allValidators.length then
        ((verifiedValidators : ℚ) / allValidators.length) * 100
      else 100
    { totalValidations := totalValidations
      endorsements := endorsements
      rejections := rejections
      averageRating := averageRating
      endorsementRate := endorsementRate
      consensusPercentage := consensusPercentage
      verifiedRate := verifiedRate
      validationHistory := sortByTsDesc (historyEntries rand 0 claims) }

/-- Days elapsed between the millisecond timestamps `now` and `createdAt`
(the source divides the difference by 1000 * 60 * 60 * 24). -/
noncomputable def daysSince (now createdAt : ℚ) : ℝ :=
  ((now : ℝ) - (createdAt : ℝ)) / (1000 * 60 * 60 * 24)

/-- calculateRecencyWeight: exponential decay of the day difference with
characteristic time 180 days. -/
noncomputable def calculateRecencyWeight (now createdAt : ℚ) : ℝ :=
  Real.exp (-(daysSince now createdAt / 180))

/-- Weight of one claim inside calculateWeightedScore: confidence
(defaulting falsily to 0.5) times the recency weight. -/
noncomputable def claimWeight (now : ℚ) (c : Claim) : ℝ :=
  ((jsOrQ c.confidence (1/2) : ℚ) : ℝ) * calculateRecencyWeight now c.createdAt

/-- calculateWeightedScore: confidence- and recency-weighted mean of the
claim scores (scores defaulting falsily to 0), 0 on an empty list or a
non-positive weight sum. -/
noncomputable def calculateWeightedScore (now : ℚ) (claims : List Claim) : ℝ :=
  if claims.length = 0 then 0
  else
    let totalWeightedScore :=
      (claims.map (fun c => ((c.score.getD 0 : ℚ) : ℝ) * claimWeight now c)).sum
    let totalWeight := (claims.map (fun c => claimWeight now c)).sum
    if 0 < totalWeight then totalWeightedScore / totalWeight else 0

/-- isClaimInPillar: case-insensitive keyword containment against the
aspect label; a missing aspect matches nothing. -/
def isClaimInPillar (c : Claim) (keywords : List String) : Bool :=
  match c.aspect with
  | none => false
  | some a => keywords.any fun k => strIncludes (lowerStr a) k

/-- Claims whose lower-cased aspect contains "esg" or "overall": the
fallback source used when a pillar has no keyword matches. -/
def overallFallback (claims : List Claim) : List Claim :=
  claims.filter fun c =>
    match c.aspect with
    | none => false
    | some a => strIncludes (lowerStr a) "esg" || strIncludes (lowerStr a) "overall"

/-- calculatePillarScore: weighted score of the keyword-matching claims,
of the general-assessment fallback claims when no keyword matches, and 0
when neither set is inhabited. -/
noncomputable def calculatePillarScore (now : ℚ) (claims : List Claim)
    (keywords : List String) : ℝ :=
  let pillarClaims := claims.filter (fun c => isClaimInPillar c keywords)
  if pillarClaims.length = 0 then
    let overallClaims := overallFallback claims
    if overallClaims.length = 0 then 0
    else calculateWeightedScore now overallClaims
  else calculateWeightedScore now pillarClaims

/-- calculateWeightedConfidence: recency-weighted mean of the confidences
(defaulting falsily to 0.5), 0 on an empty list. -/
noncomputable def calculateWeightedConfidence (now : ℚ) (claims : List Claim) : ℝ :=
  if claims.length = 0 then 0
  else
    let totalWeightedConfidence :=
      (claims.map (fun c =>
        ((jsOrQ c.confidence (1/2) : ℚ) : ℝ) *
          calculateRecencyWeight now c.createdAt)).sum
    let totalWeight :=
      (claims.map (fun c => calculateRecencyWeight now c.createdAt)).sum
    if 0 < totalWeight then totalWeightedConfidence / totalWeight else 0

/-- normalizeScoreToPercentage: affine map of [-1, 1] onto [0, 100],
clamped at both ends. -/
noncomputable def normalizeScoreToPercentage (score : ℝ) : ℝ :=
  max 0 (min 100 (((score + 1) / 2) * 100))

/-- One band of STAR_RATING_THRESHOLDS. -/
structure StarThreshold where
  min : ℚ
  max : ℚ
  stars : ℕ
deriving DecidableEq

/-- STAR_RATING_THRESHOLDS of the source, highest band first. -/
def STAR_RATING_THRESHOLDS : List StarThreshold :=
  [⟨90, 100, 5⟩, ⟨75, 89, 4⟩, ⟨60, 74, 3⟩, ⟨40, 59, 2⟩, ⟨0, 39, 1⟩]

/-- Loop body of convertPercentageToStars: first band whose closed
interval contains the percentage, default 1 star. -/
noncomputable def starsAux (p : ℝ) : List StarThreshold → ℕ
  | [] => 1
  | t :: ts =>
      if (t.min : ℝ) ≤ p ∧ p ≤ (t.max : ℝ) then t.stars else starsAux p ts

/-- convertPercentageToStars of the source. -/
noncomputable def convertPercentageToStars (percentage : ℝ) : ℕ :=
  starsAux percentage STAR_RATING_THRESHOLDS

/-- GRADE_MAPPING of the source: the five star counts that carry a grade. -/
def GRADE_MAPPING (stars : ℕ) : Option String :=
  match stars with
  | 5 => some "A+"
  | 4 => some "A"
  | 3 => some "B"
  | 2 => some "C"
  | 1 => some "D"
  | _ => none

/-- Grade derivation of calculateESGMetrics:
GRADE_MAPPING[overallStars] || the letter F. -/
def gradeFromStars (stars : ℕ) : String :=
  (GRADE_MAPPING stars).getD "F"

/-- JavaScript Math.round: floor of the argument plus one half. -/
noncomputable def jsRound (x : ℝ) : ℤ :=
  ⌊x + 1 / 2⌋

/-- calculateIndustryPercentile: rounded share of the defined claim
scores lying strictly below the given score, 50 on an empty population. -/
noncomputable def calculateIndustryPercentile (score : ℝ) (allClaims : List Claim) :
    ℤ :=
  let scores := (allClaims.filter (fun c => c.score.isSome)).map
    (fun c => (c.score.getD 0 : ℚ))
  if scores.length = 0 then 50
  else
    let belowScore := (scores.filter (fun s => ((s : ℝ) < score))).length
    jsRound (((belowScore : ℝ) / (scores.length : ℝ)) * 100)

/-- Validity filter of calculateESGMetrics: score present (not undefined
or null) and confidence present and positive. -/
def isValidClaim (c : Claim) : Bool :=
  c.score.isSome &&
    (match c.confidence with
     | some cf => decide (0 < cf)
     | none => false)

/-- ESG_WEIGHTS of the source. -/
structure ESGWeights where
  environmental : ℝ
  social : ℝ
  governance : ℝ

/-- ESG_WEIGHTS values: 0.4 environmental, 0.3 social, 0.3 governance. -/
noncomputable def ESG_WEIGHTS : ESGWeights :=
  { environmental := 0.4, social := 0.3, governance := 0.3 }

/-- Output record of calculateESGMetrics, the declared ESGMetrics
interface.  lastUpdated carries the clock value. -/
structure ESGMetrics where
  overallScore : ℝ
  overallPercentage : ℝ
  overallStars : ℕ
  overallGrade : String
  environmentalScore : ℝ
  socialScore : ℝ
  governanceScore : ℝ
  confidenceLevel : ℝ
  industryPercentile : ℤ
  totalValidations : ℕ
  endorsements : ℕ
  rejections : ℕ
  averageRating : ℚ
  endorsementRate : ℚ
  consensusPercentage : ℚ
  lastUpdated : ℚ

/-- getDefaultMetrics of the source. -/
def getDefaultMetrics (now : ℚ) : ESGMetrics :=
  { overallScore := 0, overallPercentage := 0, overallStars := 0
    overallGrade := "N/A", environmentalScore := 0, socialScore := 0
    governanceScore := 0, confidenceLevel := 0, industryPercentile := 50
    totalValidations := 0, endorsements := 0, rejections := 0
    averageRating := 0, endorsementRate := 0, consensusPercentage := 0
    lastUpdated := now }

/-- calculateESGMetrics of the source, with the clock and the Math.random
stream explicit. -/
noncomputable def calculateESGMetrics (now : ℚ) (rand : ℕ → ℚ)
    (claims : List Claim) : ESGMetrics :=
  if claims.length = 0 then getDefaultMetrics now
  else
    let validClaims := claims.filter isValidClaim
    if validClaims.length = 0 then getDefaultMetrics now
    else
      let environmentalScore := calculatePillarScore now validClaims envKeywords
      let socialScore := calculatePillarScore now validClaims socKeywords
      let governanceScore := calculatePillarScore now validClaims govKeywords
      let overallScore :=
        environmentalScore * ESG_WEIGHTS.environmental +
        socialScore * ESG_WEIGHTS.social +
        governanceScore * ESG_WEIGHTS.governance
      let overallPercentage := normalizeScoreToPercentage overallScore
      let overallStars := convertPercentageToStars overallPercentage
      let overallGrade := (GRADE_MAPPING overallStars).getD "F"
      let confidenceLevel := calculateWeightedConfidence now validClaims
      let industryPercentile := calculateIndustryPercentile overallScore claims
      let vm := calculateValidationMetrics rand claims
      { overallScore := overallScore
        overallPercentage := overallPercentage
        overallStars := overallStars
        overallGrade := overallGrade
        environmentalScore := normalizeScoreToPercentage environmentalScore
        socialScore := normalizeScoreToPercentage socialScore
        governanceScore := normalizeScoreToPercentage governanceScore
        confidenceLevel := confidenceLevel
        industryPercentile := industryPercentile
        totalValidations := vm.totalValidations
        endorsements := vm.endorsements
        rejections := vm.rejections
        averageRating := vm.averageRating
        endorsementRate := vm.endorsementRate
        consensusPercentage := vm.consensusPercentage
        lastUpdated := now }

/-- calculateGrade of the theme module: the separate twelve-step letter
scale over the percentage axis, running from A+ at 90 down to D- below
40, applied after converting a [-1, 1] score to a percentage. -/
noncomputable def calculateGrade (score : ℝ) : String :=
  let percentage := ((score + 1) / 2) * 100
  if 90 ≤ percentage then "A+"
  else if 85 ≤ percentage then "A"
  else if 80 ≤ percentage then "A-"
  else if 75 ≤ percentage then "B+"
  else if 70 ≤ percentage then "B"
  else if 65 ≤ percentage then "B-"
  else if 60 ≤ percentage then "C+"
  else if 55 ≤ percentage then "C"
  else if 50 ≤ percentage then "C-"
  else if 45 ≤ percentage then "D+"
  else if 40 ≤ percentage then "D"
  else "D-"

/-- Modelled from the spec: the weighted-aggregate contract of section
4.2 as written, aggregate = sum of score times confidence times
exp(minus days over 180), divided by the sum of confidence times
exp(minus days over 180), and 0 when that weight sum is 0.  The spec
words carry no falsy defaulting; confidence and score are the claim
fields themselves. -/
noncomputable def aggregateSpec (now : ℚ) (claims : List Claim) : ℝ :=
  let weightSum :=
    (claims.map (fun c =>
      ((c.confidence.getD 0 : ℚ) : ℝ) *
        Real.exp (-(daysSince now c.createdAt / 180)))).sum
  let scoreSum :=
    (claims.map (fun c =>
      ((c.score.getD 0 : ℚ) : ℝ) * ((c.confidence.getD 0 : ℚ) : ℝ) *
        Real.exp (-(daysSince now c.createdAt / 180)))).sum
  if weightSum = 0 then 0 else scoreSum / weightSum

/-- Blank claim all of whose optional fields are absent, used as the base
of the concrete inputs below. -/
def baseClaim : Claim :=
  { id := 1, subject := "ACME", aspect := none, score := none, stars := none
    confidence := none, createdAt := 0, statement := none, author := none
    curator := none, sourceURI := none, validators := none }

/-- Claim carrying only a star rating of seven halves. -/
def starClaim : Claim := { baseClaim with stars := some (7/2) }

/-- Claim carrying only a star rating of five. -/
def fiveStarClaim : Claim := { baseClaim with stars := some 5 }

/-- Validator sub-record with a rating of four and no optional extras. -/
def plainValidator : Validator :=
  { name := "Jane Roe", role := "ESG Analyst", rating := 4
    statement := "solid report", verified := true, organization := "Audit Co"
    linkedinUrl := none, twitterUrl := none, websiteUrl := none
    githubUrl := none, expertise := none, yearsExperience := some 7 }

/-- Claim with a star rating and a validator but no score, exercising the
default path of calculateESGMetrics. -/
def noScoreClaim : Claim :=
  { baseClaim with stars := some 5, validators := some [plainValidator] }

/-- Claim labelled climate with the given score and confidence, created
at time 0. -/
def mkClimateClaim (s cf : ℚ) : Claim :=
  { baseClaim with
    aspect := some "climate"
    score := some s
    confidence := some cf }

/-- Claim with score 1 but confidence exactly 0, the falsy value. -/
def zeroConfClaim : Claim := { baseClaim with score := some 1, confidence := some 0 }

/-- Claim with score one half, confidence 1, created at time 0. -/
def uniformClaim : Claim :=
  { baseClaim with score := some (1/2), confidence := some 1 }

/-- Constant stream standing for the Math.random source. -/
def constRand (q : ℚ) : ℕ → ℚ := fun _ => q

/-- Helper: the all-zero ValidationMetrics record returned on the
zero-rating path. -/
theorem calcVM_of_no_ratings (rand : ℕ → ℚ) (claims : List Claim)
    (h : collectRatings claims = []) :
    calculateValidationMetrics rand claims =
      { totalValidations := 0, endorsements := 0, rejections := 0
        averageRating := 0, endorsementRate := 0, consensusPercentage := 0
        verifiedRate := 0, validationHistory := [] } := by
  simp [calculateValidationMetrics, h]

/-- C1: the spec asserts that an empty claim list (and any claim list
contributing zero ratings) yields the zero-valued result with verifiedRate
100.  The code instead returns verifiedRate 0 on that path: the 100
default is reachable only when at least one rating exists. -/
theorem c1_counterexample :
    (calculateValidationMetrics (constRand 0) []).verifiedRate = 0 ∧
      (calculateValidationMetrics (constRand 0) []).verifiedRate ≠ 100 := by
  decide

/-- C1 (amended): for the empty claim list, and for any claim list
contributing zero ratings, calculateValidationMetrics returns total=0,
endorsements=0, rejections=0, average=0, endorsementRate=0, consensus=0,
an empty history, and verifiedRate equal to 0 rather than 100. -/
theorem c1_zero_ratings_result (rand : ℕ → ℚ) (claims : List Claim)
    (h : collectRatings claims = []) :
    (calculateValidationMetrics rand claims).totalValidations = 0 ∧
    (calculateValidationMetrics rand claims).endorsements = 0 ∧
    (calculateValidationMetrics rand claims).rejections = 0 ∧
    (calculateValidationMetrics rand claims).averageRating = 0 ∧
    (calculateValidationMetrics rand claims).endorsementRate = 0 ∧
    (calculateValidationMetrics rand claims).consensusPercentage = 0 ∧
    (calculateValidationMetrics rand claims).validationHistory = [] ∧
    (calculateValidationMetrics rand claims).verifiedRate = 0 := by
  rw [calcVM_of_no_ratings rand claims h]
  exact ⟨rfl, rfl, rfl, rfl, rfl, rfl, rfl, rfl⟩

/-- C1 witness: the empty claim list satisfies the zero-rating hypothesis
and the amended conclusion. -/
theorem c1_witness :
    collectRatings [] = [] ∧
    ((calculateValidationMetrics (constRand 0) []).totalValidations = 0 ∧
    (calculateValidationMetrics (constRand 0) []).endorsements = 0 ∧
    (calculateValidationMetrics (constRand 0) []).rejections = 0 ∧
    (calculateValidationMetrics (constRand 0) []).averageRating = 0 ∧
    (calculateValidationMetrics (constRand 0) []).endorsementRate = 0 ∧
    (calculateValidationMetrics (constRand 0) []).consensusPercentage = 0 ∧
    (calculateValidationMetrics (constRand 0) []).validationHistory = [] ∧
    (calculateValidationMetrics (constRand 0) []).verifiedRate = 0) :=
  ⟨rfl, c1_zero_ratings_result (constRand 0) [] rfl⟩

/-- Helper: bucket counting on a rating list.  The endorsement bucket
(rating at least 4) and the rejection bucket (rating at most 2) together
never exceed the list length, with equality exactly when every rating
lies in one of the two buckets. -/
theorem bucket_count (l : List ℚ) :
    (l.filter (fun r => 4 ≤ r)).length + (l.filter (fun r => r ≤ 2)).length ≤
      l.length ∧
    ((l.filter (fun r => 4 ≤ r)).length + (l.filter (fun r => r ≤ 2)).length =
        l.length ↔ ∀ r ∈ l, r ≤ 2 ∨ 4 ≤ r) := by
  induction l with
  | nil => simp
  | cons a l ih =>
      obtain ⟨ih1, ih2⟩ := ih
      rw [List.filter_cons, List.filter_cons]
      by_cases h4 : (4 : ℚ) ≤ a
      · have h2 : ¬ a ≤ 2 := by linarith
        rw [if_pos (decide_eq_true h4), if_neg (by simp [h2])]
        simp only [List.length_cons, List.mem_cons]
        refine ⟨by omega, ?_, ?_⟩
        · intro he r hr
          rcases hr with hr | hr
          · subst hr; exact Or.inr h4
          · exact ih2.1 (by omega) r hr
        · intro he
          have hl := ih2.2 (fun r hr => he r (Or.inr hr))
          omega
      · by_cases h2 : a ≤ 2
        · rw [if_neg (by simp [h4]), if_pos (decide_eq_true h2)]
          simp only [List.length_cons, List.mem_cons]
          refine ⟨by omega, ?_, ?_⟩
          · intro he r hr
            rcases hr with hr | hr
            · subst hr; exact Or.inl h2
            · exact ih2.1 (by omega) r hr
          · intro he
            have hl := ih2.2 (fun r hr => he r (Or.inr hr))
            omega
        · rw [if_neg (by simp [h4]), if_neg (by simp [h2])]
          simp only [List.length_cons, List.mem_cons]
          refine ⟨by omega, ?_, ?_⟩
          · intro he
            omega
          · intro he
            exfalso
            rcases he a (Or.inl rfl) with h | h
            · exact h2 h
            · exact h4 h

/-- C8 (amended): over the rating population collected by
calculateValidationMetrics, endorsements plus rejections never exceed the
total, with equality exactly when no collected rating lies strictly
between 2 and 4 — for integer-valued ratings, exactly when no rating
equals 3. -/
theorem c8_buckets (rand : ℕ → ℚ) (claims : List Claim) :
    (calculateValidationMetrics rand claims).endorsements +
        (calculateValidationMetrics rand claims).rejections ≤
      (calculateValidationMetrics rand claims).totalValidations ∧
    ((calculateValidationMetrics rand claims).endorsements +
          (calculateValidationMetrics rand claims).rejections =
        (calculateValidationMetrics rand claims).totalValidations ↔
      ∀ r ∈ collectRatings claims, r ≤ 2 ∨ 4 ≤ r) := by
  by_cases h : (collectRatings claims).length = 0
  · have hnil : collectRatings claims = [] := List.length_eq_zero.mp h
    rw [calcVM_of_no_ratings rand claims hnil, hnil]
    simp
  · have := bucket_count (collectRatings claims)
    simp only [calculateValidationMetrics, h, if_false, if_neg h]
    exact this

/-- C8: the spec states equality holds exactly when no rating equals 3,
but a collected rating of seven halves lies in neither bucket without
being 3, so endorsements plus rejections fall short of the total while
no rating equals 3. -/
theorem c8_counterexample :
    (calculateValidationMetrics (constRand 0) [starClaim]).endorsements +
          (calculateValidationMetrics (constRand 0) [starClaim]).rejections ≠
        (calculateValidationMetrics (constRand 0) [starClaim]).totalValidations ∧
      ∀ r ∈ collectRatings [starClaim], r ≠ 3 := by
  have hc : collectRatings [starClaim] = [7/2] := by
    simp [collectRatings, starClaim, baseClaim]
  constructor
  · simp only [calculateValidationMetrics, hc]
    norm_num
  · rw [hc]
    intro r hr
    simp at hr
    rw [hr]
    norm_num

/-- Helper: every scalar field of calculateValidationMetrics is
independent of the Math.random stream; only the validation history can
differ between streams. -/
theorem vm_scalar_fields (r1 r2 : ℕ → ℚ) (claims : List Claim) :
    (calculateValidationMetrics r1 claims).totalValidations =
      (calculateValidationMetrics r2 claims).totalValidations ∧
    (calculateValidationMetrics r1 claims).endorsements =
      (calculateValidationMetrics r2 claims).endorsements ∧
    (calculateValidationMetrics r1 claims).rejections =
      (calculateValidationMetrics r2 claims).rejections ∧
    (calculateValidationMetrics r1 claims).averageRating =
      (calculateValidationMetrics r2 claims).averageRating ∧
    (calculateValidationMetrics r1 claims).endorsementRate =
      (calculateValidationMetrics r2 claims).endorsementRate ∧
    (calculateValidationMetrics r1 claims).consensusPercentage =
      (calculateValidationMetrics r2 claims).consensusPercentage ∧
    (calculateValidationMetrics r1 claims).verifiedRate =
      (calculateValidationMetrics r2 claims).verifiedRate := by
  by_cases h : (collectRatings claims).length = 0 <;>
    simp [calculateValidationMetrics, h]

/-- C5: the spec asserts that with the clock held fixed the engine is
deterministic with the claims as only other input, but the history
builder also reads Math.random for yearsExperience: two runs over one
claim list with different random draws return different
calculateValidationMetrics outputs. -/
theorem c5_counterexample :
    calculateValidationMetrics (constRand 0) [fiveStarClaim] ≠
      calculateValidationMetrics (constRand (9/10)) [fiveStarClaim] := by
  intro h
  have hmap := congrArg
    (fun vm => vm.validationHistory.map (fun e => e.yearsExperience)) h
  simp only at hmap
  have h1 : (calculateValidationMetrics (constRand 0)
      [fiveStarClaim]).validationHistory.map (fun e => e.yearsExperience) =
      [some 5] := by
    simp [calculateValidationMetrics, collectRatings, fiveStarClaim, baseClaim,
      historyEntries, validatorEntries, mkClaimEntry, sortByTsDesc, insertByTs,
      constRand]
  have h2 : (calculateValidationMetrics (constRand (9/10))
      [fiveStarClaim]).validationHistory.map (fun e => e.yearsExperience) =
      [some 14] := by
    simp [calculateValidationMetrics, collectRatings, fiveStarClaim, baseClaim,
      historyEntries, validatorEntries, mkClaimEntry, sortByTsDesc, insertByTs,
      constRand]
  rw [h1, h2] at hmap
  simp at hmap

/-- C5 (amended): with the clock fixed, calculateESGMetrics is
deterministic in the claims — its output does not depend on the
Math.random stream — and every scalar field of calculateValidationMetrics
is likewise random-independent; only the yearsExperience values inside
the validation history consume the random source, so full
calculateValidationMetrics outputs can differ between invocations. -/
theorem c5_determinism (now : ℚ) (r1 r2 : ℕ → ℚ) (claims : List Claim) :
    calculateESGMetrics now r1 claims = calculateESGMetrics now r2 claims ∧
    (calculateValidationMetrics r1 claims).totalValidations =
      (calculateValidationMetrics r2 claims).totalValidations ∧
    (calculateValidationMetrics r1 claims).endorsements =
      (calculateValidationMetrics r2 claims).endorsements ∧
    (calculateValidationMetrics r1 claims).rejections =
      (calculateValidationMetrics r2 claims).rejections ∧
    (calculateValidationMetrics r1 claims).averageRating =
      (calculateValidationMetrics r2 claims).averageRating ∧
    (calculateValidationMetrics r1 claims).endorsementRate =
      (calculateValidationMetrics r2 claims).endorsementRate ∧
    (calculateValidationMetrics r1 claims).consensusPercentage =
      (calculateValidationMetrics r2 claims).consensusPercentage ∧
    (calculateValidationMetrics r1 claims).verifiedRate =
      (calculateValidationMetrics r2 claims).verifiedRate := by
  obtain ⟨e1, e2, e3, e4, e5, e6, e7⟩ := vm_scalar_fields r1 r2 claims
  refine ⟨?_, e1, e2, e3, e4, e5, e6, e7⟩
  simp only [calculateESGMetrics]
  split
  · rfl
  · split
    · rfl
    · simp [ESGMetrics.mk.injEq, e1, e2, e3, e4, e5, e6]

/-- Helper: closed form of convertPercentageToStars as a nested band
test, default 1 star when no band contains the percentage. -/
theorem convertPercentageToStars_eq (p : ℝ) :
    convertPercentageToStars p =
      if 90 ≤ p ∧ p ≤ 100 then 5
      else if 75 ≤ p ∧ p ≤ 89 then 4
      else if 60 ≤ p ∧ p ≤ 74 then 3
      else if 40 ≤ p ∧ p ≤ 59 then 2
      else if 0 ≤ p ∧ p ≤ 39 then 1
      else 1 := by
  simp only [convertPercentageToStars, STAR_RATING_THRESHOLDS, starsAux]
  norm_num

/-- Helper: the star count returned by convertPercentageToStars always
lies between 1 and 5. -/
theorem convertPercentageToStars_bounds (p : ℝ) :
    1 ≤ convertPercentageToStars p ∧ convertPercentageToStars p ≤ 5 := by
  rw [convertPercentageToStars_eq]
  split_ifs <;> norm_num

/-- C3: the spec asserts the star bands are gapless over all of [0,100],
every percentage such as 89.5 receiving the band of its surrounding
documented edge; but 89.5 is contained in no threshold band, and
convertPercentageToStars returns the loop default of 1 star for it, not
the surrounding band value 4. -/
theorem c3_counterexample :
    (∀ t ∈ STAR_RATING_THRESHOLDS,
        ¬ ((t.min : ℝ) ≤ 89.5 ∧ (89.5 : ℝ) ≤ (t.max : ℝ))) ∧
      convertPercentageToStars (89.5 : ℝ) = 1 ∧ (1 : ℕ) ≠ 4 := by
  refine ⟨?_, ?_, by norm_num⟩
  · intro t ht
    fin_cases ht <;> norm_num
  · rw [convertPercentageToStars_eq]
    norm_num

/-- C3 (amended): over the integer percentages 0 to 100 the star bands
are contiguous and exhaustive — every integer percentage lies in exactly
one threshold band, and convertPercentageToStars maps it by the
documented edges 0-39 to 1, 40-59 to 2, 60-74 to 3, 75-89 to 4 and
90-100 to 5; non-integer percentages falling strictly inside a boundary
gap such as (89, 90) receive the default of 1 star instead. -/
theorem c3_integer_bands (n : ℕ) (h : n ≤ 100) :
    (STAR_RATING_THRESHOLDS.countP
        (fun t => decide (t.min ≤ (n : ℚ)) && decide ((n : ℚ) ≤ t.max))) = 1 ∧
    convertPercentageToStars (n : ℝ) =
      (if 90 ≤ n then 5 else if 75 ≤ n then 4 else if 60 ≤ n then 3
       else if 40 ≤ n then 2 else 1) := by
  constructor
  · simp only [STAR_RATING_THRESHOLDS, List.countP_cons, List.countP_nil,
      Bool.and_eq_true, decide_eq_true_eq]
    rcases le_or_lt 90 n with h90 | h90
    · have q1 : (90 : ℚ) ≤ (n : ℚ) := by exact_mod_cast h90
      have q2 : ((n : ℚ)) ≤ 100 := by exact_mod_cast h
      have q3 : ¬ ((n : ℚ)) ≤ 89 := by
        rw [not_le]; exact_mod_cast (by omega : (89 : ℕ) < n)
      have q4 : ¬ ((n : ℚ)) ≤ 74 := by
        rw [not_le]; exact_mod_cast (by omega : (74 : ℕ) < n)
      have q5 : ¬ ((n : ℚ)) ≤ 59 := by
        rw [not_le]; exact_mod_cast (by omega : (59 : ℕ) < n)
      have q6 : ¬ ((n : ℚ)) ≤ 39 := by
        rw [not_le]; exact_mod_cast (by omega : (39 : ℕ) < n)
      simp [q1, q2, q3, q4, q5, q6]
    · rcases le_or_lt 75 n with h75 | h75
      · have q1 : ¬ ((90 : ℚ) ≤ (n : ℚ)) := by
          rw [not_le]; exact_mod_cast h90
        have q2 : (75 : ℚ) ≤ (n : ℚ) := by exact_mod_cast h75
        have q3 : ((n : ℚ)) ≤ 89 := by exact_mod_cast (by omega : n ≤ 89)
        have q4 : ¬ ((n : ℚ)) ≤ 74 := by
          rw [not_le]; exact_mod_cast (by omega : (74 : ℕ) < n)
        have q5 : ¬ ((n : ℚ)) ≤ 59 := by
          rw [not_le]; exact_mod_cast (by omega : (59 : ℕ) < n)
        have q6 : ¬ ((n : ℚ)) ≤ 39 := by
          rw [not_le]; exact_mod_cast (by omega : (39 : ℕ) < n)
        simp [q1, q2, q3, q4, q5, q6]
      · rcases le_or_lt 60 n with h60 | h60
        · have q1 : ¬ ((90 : ℚ) ≤ (n : ℚ)) := by
            rw [not_le]; exact_mod_cast h90
          have q2 : ¬ ((75 : ℚ) ≤ (n : ℚ)) := by
            rw [not_le]; exact_mod_cast h75
          have q3 : (60 : ℚ) ≤ (n : ℚ) := by exact_mod_cast h60
          have q4 : ((n : ℚ)) ≤ 74 := by exact_mod_cast (by omega : n ≤ 74)
          have q5 : ¬ ((n : ℚ)) ≤ 59 := by
            rw [not_le]; exact_mod_cast (by omega : (59 : ℕ) < n)
          have q6 : ¬ ((n : ℚ)) ≤ 39 := by
            rw [not_le]; exact_mod_cast (by omega : (39 : ℕ) < n)
          simp [q1, q2, q3, q4, q5, q6]
        · rcases le_or_lt 40 n with h40 | h40
          · have q1 : ¬ ((90 : ℚ) ≤ (n : ℚ)) := by
              rw [not_le]; exact_mod_cast h90
            have q2 : ¬ ((75 : ℚ) ≤ (n : ℚ)) := by
              rw [not_le]; exact_mod_cast h75
            have q3 : ¬ ((60 : ℚ) ≤ (n : ℚ)) := by
              rw [not_le]; exact_mod_cast h60
            have q4 : (40 : ℚ) ≤ (n : ℚ) := by exact_mod_cast h40
            have q5 : ((n : ℚ)) ≤ 59 := by exact_mod_cast (by omega : n ≤ 59)
            have q6 : ¬ ((n : ℚ)) ≤ 39 := by
              rw [not_le]; exact_mod_cast (by omega : (39 : ℕ) < n)
            simp [q1, q2, q3, q4, q5, q6]
          · have q1 : ¬ ((90 : ℚ) ≤ (n : ℚ)) := by
              rw [not_le]; exact_mod_cast h90
            have q2 : ¬ ((75 : ℚ) ≤ (n : ℚ)) := by
              rw [not_le]; exact_mod_cast h75
            have q3 : ¬ ((60 : ℚ) ≤ (n : ℚ)) := by
              rw [not_le]; exact_mod_cast h60
            have q4 : ¬ ((40 : ℚ) ≤ (n : ℚ)) := by
              rw [not_le]; exact_mod_cast h40
            have q5 : (0 : ℚ) ≤ (n : ℚ) := by positivity
            have q6 : ((n : ℚ)) ≤ 39 := by exact_mod_cast (by omega : n ≤ 39)
            simp [q1, q2, q3, q4, q5, q6]
  · rw [convertPercentageToStars_eq]
    rcases le_or_lt 90 n with h90 | h90
    · have r1 : (90 : ℝ) ≤ (n : ℝ) := by exact_mod_cast h90
      have r2 : ((n : ℝ)) ≤ 100 := by exact_mod_cast h
      simp [r1, r2, h90]
    · rcases le_or_lt 75 n with h75 | h75
      · have r1 : ¬ ((90 : ℝ) ≤ (n : ℝ)) := by
          rw [not_le]; exact_mod_cast h90
        have r2 : (75 : ℝ) ≤ (n : ℝ) := by exact_mod_cast h75
        have r3 : ((n : ℝ)) ≤ 89 := by exact_mod_cast (by omega : n ≤ 89)
        have r4 : ¬ (90 ≤ n) := by omega
        simp [r1, r2, r3, r4, h75]
      · rcases le_or_lt 60 n with h60 | h60
        · have r1 : ¬ ((90 : ℝ) ≤ (n : ℝ)) := by
            rw [not_le]; exact_mod_cast h90
          have r2 : ¬ ((75 : ℝ) ≤ (n : ℝ)) := by
            rw [not_le]; exact_mod_cast h75
          have r3 : (60 : ℝ) ≤ (n : ℝ) := by exact_mod_cast h60
          have r4 : ((n : ℝ)) ≤ 74 := by exact_mod_cast (by omega : n ≤ 74)
          have r5 : ¬ (90 ≤ n) := by omega
          have r6 : ¬ (75 ≤ n) := by omega
          simp [r1, r2, r3, r4, r5, r6, h60]
        · rcases le_or_lt 40 n with h40 | h40
          · have r1 : ¬ ((90 : ℝ) ≤ (n : ℝ)) := by
              rw [not_le]; exact_mod_cast h90
            have r2 : ¬ ((75 : ℝ) ≤ (n : ℝ)) := by
              rw [not_le]; exact_mod_cast h75
            have r3 : ¬ ((60 : ℝ) ≤ (n : ℝ)) := by
              rw [not_le]; exact_mod_cast h60
            have r4 : (40 : ℝ) ≤ (n : ℝ) := by exact_mod_cast h40
            have r5 : ((n : ℝ)) ≤ 59 := by exact_mod_cast (by omega : n ≤ 59)
            have r6 : ¬ (90 ≤ n) := by omega
            have r7 : ¬ (75 ≤ n) := by omega
            have r8 : ¬ (60 ≤ n) := by omega
            simp [r1, r2, r3, r4, r5, r6, r7, r8, h40]
          · have r1 : ¬ ((90 : ℝ) ≤ (n : ℝ)) := by
              rw [not_le]; exact_mod_cast h90
            have r2 : ¬ ((75 : ℝ) ≤ (n : ℝ)) := by
              rw [not_le]; exact_mod_cast h75
            have r3 : ¬ ((60 : ℝ) ≤ (n : ℝ)) := by
              rw [not_le]; exact_mod_cast h60
            have r4 : ¬ ((40 : ℝ) ≤ (n : ℝ)) := by
              rw [not_le]; exact_mod_cast h40
            have r5 : (0 : ℝ) ≤ (n : ℝ) := by positivity
            have r6 : ((n : ℝ)) ≤ 39 := by exact_mod_cast (by omega : n ≤ 39)
            have r7 : ¬ (90 ≤ n) := by omega
            have r8 : ¬ (75 ≤ n) := by omega
            have r9 : ¬ (60 ≤ n) := by omega
            have r10 : ¬ (40 ≤ n) := by omega
            simp [r1, r2, r3, r4, r5, r6, r7, r8, r9, r10]

/-- C3 witness: percentage 60 lies in exactly one band and converts to 3
stars. -/
theorem c3_witness :
    (60 : ℕ) ≤ 100 ∧
    ((STAR_RATING_THRESHOLDS.countP
        (fun t => decide (t.min ≤ ((60 : ℕ) : ℚ)) &&
          decide (((60 : ℕ) : ℚ) ≤ t.max))) = 1 ∧
    convertPercentageToStars ((60 : ℕ) : ℝ) =
      (if 90 ≤ (60 : ℕ) then 5 else if 75 ≤ (60 : ℕ) then 4
       else if 60 ≤ (60 : ℕ) then 3 else if 40 ≤ (60 : ℕ) then 2 else 1)) :=
  ⟨by norm_num, c3_integer_bands 60 (by norm_num)⟩

/-- C9: calculateIndustryPercentile returns the rounded share of the
defined-score population lying strictly below the given score — ties are
excluded by the strict comparison — and returns exactly 50 when the
population is empty. -/
theorem c9_percentile (score : ℝ) (claims : List Claim) :
    calculateIndustryPercentile score claims =
      (if ((claims.filter (fun c => c.score.isSome)).map
            (fun c => (c.score.getD 0 : ℚ))) = [] then 50
       else jsRound ((100 : ℝ) *
          ((((claims.filter (fun c => c.score.isSome)).map
              (fun c => (c.score.getD 0 : ℚ))).filter
                (fun s => ((s : ℝ) < score))).length : ℝ) /
          ((((claims.filter (fun c => c.score.isSome)).map
              (fun c => (c.score.getD 0 : ℚ)))).length : ℝ))) := by
  simp only [calculateIndustryPercentile]
  by_cases hp : ((claims.filter (fun c => c.score.isSome)).map
      (fun c => (c.score.getD 0 : ℚ))) = []
  · simp [hp]
  · have hlen : ¬ (((claims.filter (fun c => c.score.isSome)).map
        (fun c => (c.score.getD 0 : ℚ))).length = 0) := by
      simpa [List.length_eq_zero] using hp
    simp only [hlen, if_false, hp, if_neg hp, if_neg hlen]
    congr 1
    ring

/-- Helper: the validity filter of calculateESGMetrics holds exactly when
the score is present and the confidence is present and positive. -/
theorem isValidClaim_iff (c : Claim) :
    isValidClaim c = true ↔
      c.score.isSome = true ∧ ∃ cf, c.confidence = some cf ∧ 0 < cf := by
  unfold isValidClaim
  cases hcf : c.confidence with
  | none => simp [hcf]
  | some cf => simp [hcf]

/-- Helper: when no claim passes the validity filter, calculateESGMetrics
returns getDefaultMetrics. -/
theorem calcESG_default (now : ℚ) (rand : ℕ → ℚ) (claims : List Claim)
    (h : ∀ c ∈ claims, ¬ (c.score.isSome = true ∧
      ∃ cf, c.confidence = some cf ∧ 0 < cf)) :
    calculateESGMetrics now rand claims = getDefaultMetrics now := by
  have hfil : claims.filter isValidClaim = [] := by
    rw [List.filter_eq_nil_iff]
    intro c hc
    intro hv
    exact h c hc ((isValidClaim_iff c).mp hv)
  unfold calculateESGMetrics
  by_cases hlen : claims.length = 0
  · rw [if_pos hlen]
  · rw [if_neg hlen, hfil]
    simp

/-- C10: a claim list in which no claim has both a defined score and a
positive confidence — even one whose claims carry star ratings and
validator sub-records — makes calculateESGMetrics return the fixed
default metrics: zero scores and percentages, 0 stars, the grade string
outside the letter scale, percentile 50, and zero embedded validation
counts, so validator data present in the input is ignored on this
path. -/
theorem c10_default_metrics (now : ℚ) (rand : ℕ → ℚ) (claims : List Claim)
    (h : ∀ c ∈ claims, ¬ (c.score.isSome = true ∧
      ∃ cf, c.confidence = some cf ∧ 0 < cf)) :
    calculateESGMetrics now rand claims = getDefaultMetrics now ∧
    (calculateESGMetrics now rand claims).overallScore = 0 ∧
    (calculateESGMetrics now rand claims).overallPercentage = 0 ∧
    (calculateESGMetrics now rand claims).overallStars = 0 ∧
    (calculateESGMetrics now rand claims).overallGrade = "N/A" ∧
    (calculateESGMetrics now rand claims).environmentalScore = 0 ∧
    (calculateESGMetrics now rand claims).socialScore = 0 ∧
    (calculateESGMetrics now rand claims).governanceScore = 0 ∧
    (calculateESGMetrics now rand claims).confidenceLevel = 0 ∧
    (calculateESGMetrics now rand claims).industryPercentile = 50 ∧
    (calculateESGMetrics now rand claims).totalValidations = 0 ∧
    (calculateESGMetrics now rand claims).endorsements = 0 ∧
    (calculateESGMetrics now rand claims).rejections = 0 := by
  have hd := calcESG_default now rand claims h
  rw [hd]
  exact ⟨rfl, rfl, rfl, rfl, rfl, rfl, rfl, rfl, rfl, rfl, rfl, rfl, rfl⟩

/-- C10 witness: a claim carrying a five-star rating and a verified
validator but no score is mapped to the default metrics, its validator
data ignored. -/
theorem c10_witness :
    (∀ c ∈ [noScoreClaim], ¬ (c.score.isSome = true ∧
      ∃ cf, c.confidence = some cf ∧ 0 < cf)) ∧
    (calculateESGMetrics 0 (constRand 0) [noScoreClaim] =
        getDefaultMetrics 0 ∧
    (calculateESGMetrics 0 (constRand 0) [noScoreClaim]).overallScore = 0 ∧
    (calculateESGMetrics 0 (constRand 0) [noScoreClaim]).overallPercentage
        = 0 ∧
    (calculateESGMetrics 0 (constRand 0) [noScoreClaim]).overallStars = 0 ∧
    (calculateESGMetrics 0 (constRand 0) [noScoreClaim]).overallGrade
        = "N/A" ∧
    (calculateESGMetrics 0 (constRand 0) [noScoreClaim]).environmentalScore
        = 0 ∧
    (calculateESGMetrics 0 (constRand 0) [noScoreClaim]).socialScore = 0 ∧
    (calculateESGMetrics 0 (constRand 0) [noScoreClaim]).governanceScore
        = 0 ∧
    (calculateESGMetrics 0 (constRand 0) [noScoreClaim]).confidenceLevel
        = 0 ∧
    (calculateESGMetrics 0 (constRand 0) [noScoreClaim]).industryPercentile
        = 50 ∧
    (calculateESGMetrics 0 (constRand 0) [noScoreClaim]).totalValidations
        = 0 ∧
    (calculateESGMetrics 0 (constRand 0) [noScoreClaim]).endorsements = 0 ∧
    (calculateESGMetrics 0 (constRand 0) [noScoreClaim]).rejections = 0) := by
  have h : ∀ c ∈ [noScoreClaim], ¬ (c.score.isSome = true ∧
      ∃ cf, c.confidence = some cf ∧ 0 < cf) := by
    intro c hc
    rw [List.mem_singleton] at hc
    subst hc
    rintro ⟨hs, _⟩
    simp [noScoreClaim, baseClaim] at hs
  exact ⟨h, c10_default_metrics 0 (constRand 0) [noScoreClaim] h⟩

/-- Helper: a claim list with a valid member takes the main branch of
calculateESGMetrics; both emptiness guards fail. -/
theorem calcESG_guards (claims : List Claim)
    (h : ∃ c ∈ claims, isValidClaim c = true) :
    ¬ claims.length = 0 ∧ ¬ (claims.filter isValidClaim).length = 0 := by
  obtain ⟨c, hc, hv⟩ := h
  constructor
  · simpa [List.length_eq_zero] using List.ne_nil_of_mem hc
  · simpa [List.length_eq_zero] using
      List.ne_nil_of_mem (List.mem_filter.mpr ⟨hc, hv⟩)

/-- C2 (amended): on every claim list with at least one valid claim, the
letter grade of the composed ESGMetrics is derived from the star rating
through the five-entry GRADE_MAPPING with default F — not computed from
the percentage by the separate twelve-step scale — and the star rating it
is derived from always lies between 1 and 5. -/
theorem c2_grade_from_stars (now : ℚ) (rand : ℕ → ℚ) (claims : List Claim)
    (h : ∃ c ∈ claims, isValidClaim c = true) :
    (calculateESGMetrics now rand claims).overallGrade =
      gradeFromStars (calculateESGMetrics now rand claims).overallStars ∧
    1 ≤ (calculateESGMetrics now rand claims).overallStars ∧
    (calculateESGMetrics now rand claims).overallStars ≤ 5 := by
  obtain ⟨hlen, hvfil⟩ := calcESG_guards claims h
  simp only [calculateESGMetrics, if_neg hlen, if_neg hvfil]
  exact ⟨rfl, convertPercentageToStars_bounds _⟩

/-- C2 witness: a concrete valid single-claim list on which the composed
grade equals the star-derived grade. -/
theorem c2_witness :
    (∃ c ∈ [mkClimateClaim (1/2) 1], isValidClaim c = true) ∧
    ((calculateESGMetrics 0 (constRand 0)
        [mkClimateClaim (1/2) 1]).overallGrade =
      gradeFromStars ((calculateESGMetrics 0 (constRand 0)
        [mkClimateClaim (1/2) 1]).overallStars) ∧
    1 ≤ (calculateESGMetrics 0 (constRand 0)
        [mkClimateClaim (1/2) 1]).overallStars ∧
    (calculateESGMetrics 0 (constRand 0)
        [mkClimateClaim (1/2) 1]).overallStars ≤ 5) := by
  have h : ∃ c ∈ [mkClimateClaim (1/2) 1], isValidClaim c = true := by
    refine ⟨mkClimateClaim (1/2) 1, List.mem_singleton.mpr rfl, ?_⟩
    rw [isValidClaim_iff]
    refine ⟨rfl, 1, rfl, one_pos⟩
  exact ⟨h, c2_grade_from_stars 0 (constRand 0) [mkClimateClaim (1/2) 1] h⟩

/-- Helper: weighted score of a single claim with definite score,
positive confidence and creation time equal to the clock is the score
itself. -/
theorem weightedScore_single (now : ℚ) (c : Claim) (s cf : ℚ)
    (hs : c.score = some s) (hcf : c.confidence = some cf)
    (hpos : 0 < cf) (ht : c.createdAt = now) :
    calculateWeightedScore now [c] = (s : ℝ) := by
  have hcfne : cf ≠ 0 := ne_of_gt hpos
  unfold calculateWeightedScore claimWeight calculateRecencyWeight daysSince jsOrQ
  simp only [hs, hcf, ht, List.length_cons, List.length_nil, List.map_cons,
    List.map_nil, List.sum_cons, List.sum_nil, Option.getD_some]
  rw [if_neg hcfne]
  rw [sub_self, zero_div, zero_div, neg_zero, Real.exp_zero, mul_one, add_zero,
    add_zero]
  have hcpos : (0 : ℝ) < (cf : ℝ) := by exact_mod_cast hpos
  rw [if_neg (by norm_num), if_pos hcpos]
  field_simp

/-- Helper: the environmental pillar of a single climate-labelled claim
aggregates exactly that claim. -/
theorem pillar_env_climate (now s cf : ℚ) :
    calculatePillarScore now [mkClimateClaim s cf] envKeywords =
      calculateWeightedScore now [mkClimateClaim s cf] := by
  unfold calculatePillarScore
  rw [show [mkClimateClaim s cf].filter
      (fun c => isClaimInPillar c envKeywords) = [mkClimateClaim s cf] from rfl]
  simp

/-- Helper: the social pillar of a single climate-labelled claim has no
keyword matches and no general-assessment fallback, so it scores 0. -/
theorem pillar_soc_climate (now s cf : ℚ) :
    calculatePillarScore now [mkClimateClaim s cf] socKeywords = 0 := by
  unfold calculatePillarScore
  rw [show [mkClimateClaim s cf].filter
      (fun c => isClaimInPillar c socKeywords) = [] from rfl]
  rw [show overallFallback [mkClimateClaim s cf] = [] from rfl]
  simp

/-- Helper: the governance pillar of a single climate-labelled claim has
no keyword matches and no fallback, so it scores 0. -/
theorem pillar_gov_climate (now s cf : ℚ) :
    calculatePillarScore now [mkClimateClaim s cf] govKeywords = 0 := by
  unfold calculatePillarScore
  rw [show [mkClimateClaim s cf].filter
      (fun c => isClaimInPillar c govKeywords) = [] from rfl]
  rw [show overallFallback [mkClimateClaim s cf] = [] from rfl]
  simp

/-- Helper: normalizeScoreToPercentage maps the raw score 0 to 50. -/
theorem normalizePct_zero : normalizeScoreToPercentage 0 = 50 := by
  unfold normalizeScoreToPercentage
  norm_num

/-- Helper: full field evaluation of calculateESGMetrics on a single
climate claim with score s and positive confidence cf created at the
clock instant: the environmental pillar carries s, the other pillars
default to raw score 0, reported percentage 50. -/
theorem esg_climate_fields (rand : ℕ → ℚ) (s cf : ℚ) (hpos : 0 < cf) :
    (calculateESGMetrics 0 rand [mkClimateClaim s cf]).overallScore =
        (s : ℝ) * 0.4 ∧
    (calculateESGMetrics 0 rand [mkClimateClaim s cf]).environmentalScore =
        normalizeScoreToPercentage (s : ℝ) ∧
    (calculateESGMetrics 0 rand [mkClimateClaim s cf]).socialScore = 50 ∧
    (calculateESGMetrics 0 rand [mkClimateClaim s cf]).governanceScore = 50 ∧
    (calculateESGMetrics 0 rand [mkClimateClaim s cf]).overallPercentage =
        normalizeScoreToPercentage ((s : ℝ) * 0.4) ∧
    (calculateESGMetrics 0 rand [mkClimateClaim s cf]).overallStars =
        convertPercentageToStars (normalizeScoreToPercentage ((s : ℝ) * 0.4)) ∧
    (calculateESGMetrics 0 rand [mkClimateClaim s cf]).overallGrade =
        gradeFromStars (convertPercentageToStars
          (normalizeScoreToPercentage ((s : ℝ) * 0.4))) := by
  have hval : isValidClaim (mkClimateClaim s cf) = true :=
    (isValidClaim_iff _).mpr ⟨rfl, cf, rfl, hpos⟩
  obtain ⟨hg1, hg2⟩ := calcESG_guards [mkClimateClaim s cf]
    ⟨_, List.mem_singleton.mpr rfl, hval⟩
  have hfil : [mkClimateClaim s cf].filter isValidClaim =
      [mkClimateClaim s cf] := by
    simp [List.filter_cons, hval]
  have hws : calculateWeightedScore 0 [mkClimateClaim s cf] = (s : ℝ) :=
    weightedScore_single 0 _ s cf rfl rfl hpos rfl
  have henv : calculatePillarScore 0 [mkClimateClaim s cf] envKeywords =
      (s : ℝ) := by rw [pillar_env_climate, hws]
  have hplus : (s : ℝ) * 0.4 + 0 * 0.3 + 0 * 0.3 = (s : ℝ) * 0.4 := by ring
  simp only [calculateESGMetrics, if_neg hg1, if_neg hg2, hfil, henv,
    pillar_soc_climate, pillar_gov_climate, ESG_WEIGHTS, hplus,
    normalizePct_zero, gradeFromStars]
  exact ⟨trivial, trivial, trivial, trivial, trivial, trivial, trivial⟩

/-- C4: the spec asserts the two pillars without data report percentage 0
and the overall percentage is 24, but the code normalizes the raw pillar
score 0 to the percentage 50, and the overall percentage of the scenario
claim (score 0.2, confidence 0.8, created now, climate-labelled) is 54,
not 24. -/
theorem c4_counterexample :
    (calculateESGMetrics 0 (constRand 0)
        [mkClimateClaim (1/5) (4/5)]).socialScore ≠ 0 ∧
    (calculateESGMetrics 0 (constRand 0)
        [mkClimateClaim (1/5) (4/5)]).overallPercentage ≠ 24 := by
  obtain ⟨h1, h2, h3, h4, h5, h6, h7⟩ :=
    esg_climate_fields (constRand 0) (1/5) (4/5) (by norm_num)
  refine ⟨by rw [h3]; norm_num, ?_⟩
  rw [h5]
  unfold normalizeScoreToPercentage
  push_cast
  norm_num

/-- C4 (amended): for the scenario claim with score 0.2, confidence 0.8,
created at the clock instant and labelled for exactly the environmental
pillar, calculateESGMetrics reports the environmental percentage 60, the
two data-free pillar percentages 50 (their raw score 0 normalized), and
the overall percentage 54 = 0.4 times 60 plus 0.3 times 50 plus 0.3
times 50. -/
theorem c4_scenario_values :
    (calculateESGMetrics 0 (constRand 0)
        [mkClimateClaim (1/5) (4/5)]).environmentalScore = 60 ∧
    (calculateESGMetrics 0 (constRand 0)
        [mkClimateClaim (1/5) (4/5)]).socialScore = 50 ∧
    (calculateESGMetrics 0 (constRand 0)
        [mkClimateClaim (1/5) (4/5)]).governanceScore = 50 ∧
    (calculateESGMetrics 0 (constRand 0)
        [mkClimateClaim (1/5) (4/5)]).overallPercentage = 54 := by
  obtain ⟨h1, h2, h3, h4, h5, h6, h7⟩ :=
    esg_climate_fields (constRand 0) (1/5) (4/5) (by norm_num)
  refine ⟨?_, h3, h4, ?_⟩
  · rw [h2]
    unfold normalizeScoreToPercentage
    push_cast
    norm_num
  · rw [h5]
    unfold normalizeScoreToPercentage
    push_cast
    norm_num

/-- C2: the spec asserts the composed grade follows the twelve-step
percentage scale running from A+ down to F; but on a valid claim list
whose overall percentage is 62 the engine assigns the star-derived grade
B while the twelve-step scale assigns C+, and the twelve-step scale
bottoms out at D-, not F. -/
theorem c2_counterexample :
    (calculateESGMetrics 0 (constRand 0)
        [mkClimateClaim (3/5) 1]).overallGrade = "B" ∧
    calculateGrade ((calculateESGMetrics 0 (constRand 0)
        [mkClimateClaim (3/5) 1]).overallScore) = "C+" ∧
    (calculateESGMetrics 0 (constRand 0)
        [mkClimateClaim (3/5) 1]).overallGrade ≠
      calculateGrade ((calculateESGMetrics 0 (constRand 0)
        [mkClimateClaim (3/5) 1]).overallScore) ∧
    calculateGrade (-1) = "D-" := by
  obtain ⟨h1, h2, h3, h4, h5, h6, h7⟩ :=
    esg_climate_fields (constRand 0) (3/5) 1 (by norm_num)
  have hnorm : normalizeScoreToPercentage ((((3:ℚ)/5 : ℚ) : ℝ) * 0.4) = 62 := by
    unfold normalizeScoreToPercentage
    push_cast
    norm_num
  have hstars : convertPercentageToStars (62 : ℝ) = 3 := by
    rw [convertPercentageToStars_eq]
    norm_num
  have hgrade : (calculateESGMetrics 0 (constRand 0)
      [mkClimateClaim (3/5) 1]).overallGrade = "B" := by
    rw [h7, hnorm, hstars]
    rfl
  have hscore : calculateGrade ((calculateESGMetrics 0 (constRand 0)
      [mkClimateClaim (3/5) 1]).overallScore) = "C+" := by
    rw [h1]
    unfold calculateGrade
    push_cast
    norm_num
  refine ⟨hgrade, hscore, ?_, ?_⟩
  · rw [hgrade, hscore]
    decide
  · unfold calculateGrade
    norm_num

/-- Helper: the sum of negated values is the negated sum. -/
theorem listSumNeg (l : List Claim) (f : Claim → ℝ) :
    (l.map fun c => -(f c)).sum = -((l.map f).sum) := by
  induction l with
  | nil => simp
  | cons a l ih => simp [ih]; ring

/-- Helper: a valid claim has a positive falsy-defaulted confidence. -/
theorem jsOrQ_pos_of_valid (c : Claim) (hv : isValidClaim c = true) :
    0 < jsOrQ c.confidence (1/2) := by
  obtain ⟨-, cf, hcf, hpos⟩ := (isValidClaim_iff c).mp hv
  rw [hcf]
  simp only [jsOrQ]
  rw [if_neg (ne_of_gt hpos)]
  exact hpos

/-- Helper: the weighted aggregate of claims with positive weights and
scores in [-1, 1] stays in [-1, 1]. -/
theorem weightedScore_bounds (now : ℚ) (l : List Claim)
    (hw : ∀ c ∈ l, 0 < jsOrQ c.confidence (1/2))
    (hs : ∀ c ∈ l, -1 ≤ (c.score.getD 0 : ℚ) ∧ (c.score.getD 0 : ℚ) ≤ 1) :
    -1 ≤ calculateWeightedScore now l ∧ calculateWeightedScore now l ≤ 1 := by
  unfold calculateWeightedScore
  by_cases hl : l.length = 0
  · rw [if_pos hl]
    norm_num
  · rw [if_neg hl]
    have hne : l ≠ [] := fun h0 => hl (by simp [h0])
    have hwpos : ∀ c ∈ l, 0 < claimWeight now c := by
      intro c hc
      exact mul_pos (by exact_mod_cast hw c hc) (Real.exp_pos _)
    have hWpos : 0 < (l.map fun c => claimWeight now c).sum := by
      apply List.sum_pos
      · intro x hx
        obtain ⟨c, hc, rfl⟩ := List.mem_map.mp hx
        exact hwpos c hc
      · intro h0
        exact hne (List.map_eq_nil_iff.mp h0)
    rw [if_pos hWpos]
    have hup : (l.map fun c => ((c.score.getD 0 : ℚ) : ℝ) *
        claimWeight now c).sum ≤ (l.map fun c => claimWeight now c).sum := by
      apply List.sum_le_sum
      intro c hc
      have h1 : ((c.score.getD 0 : ℚ) : ℝ) ≤ 1 := by exact_mod_cast (hs c hc).2
      have := mul_le_mul_of_nonneg_right h1 (le_of_lt (hwpos c hc))
      linarith
    have hlow : -((l.map fun c => claimWeight now c).sum) ≤
        (l.map fun c => ((c.score.getD 0 : ℚ) : ℝ) * claimWeight now c).sum := by
      rw [← listSumNeg l (fun c => claimWeight now c)]
      apply List.sum_le_sum
      intro c hc
      have h1 : (-1 : ℝ) ≤ ((c.score.getD 0 : ℚ) : ℝ) := by
        exact_mod_cast (hs c hc).1
      have := mul_le_mul_of_nonneg_right h1 (le_of_lt (hwpos c hc))
      linarith
    constructor
    · rw [le_div_iff₀ hWpos]
      linarith
    · rw [div_le_one hWpos]
      exact hup

/-- Helper: every pillar score over claims with positive weights and
bounded scores stays in [-1, 1], in all three branches. -/
theorem pillarScore_bounds (now : ℚ) (l : List Claim) (kw : List String)
    (hw : ∀ c ∈ l, 0 < jsOrQ c.confidence (1/2))
    (hs : ∀ c ∈ l, -1 ≤ (c.score.getD 0 : ℚ) ∧ (c.score.getD 0 : ℚ) ≤ 1) :
    -1 ≤ calculatePillarScore now l kw ∧ calculatePillarScore now l kw ≤ 1 := by
  unfold calculatePillarScore
  by_cases hp : (l.filter (fun c => isClaimInPillar c kw)).length = 0
  · rw [if_pos hp]
    by_cases ho : (overallFallback l).length = 0
    · rw [if_pos ho]
      norm_num
    · rw [if_neg ho]
      apply weightedScore_bounds
      · intro c hc
        exact hw c (List.mem_filter.mp hc).1
      · intro c hc
        exact hs c (List.mem_filter.mp hc).1
  · rw [if_neg hp]
    apply weightedScore_bounds
    · intro c hc
      exact hw c (List.mem_filter.mp hc).1
    · intro c hc
      exact hs c (List.mem_filter.mp hc).1

/-- Helper: on [-1, 1] the clamps of normalizeScoreToPercentage are
inactive and the map is exactly affine. -/
theorem normalize_affine (x : ℝ) (h1 : -1 ≤ x) (h2 : x ≤ 1) :
    normalizeScoreToPercentage x = 50 * x + 50 := by
  unfold normalizeScoreToPercentage
  rw [show ((x + 1) / 2) * 100 = 50 * x + 50 by ring]
  rw [min_eq_right (by linarith), max_eq_right (by linarith)]

/-- C6: for every claim list with at least one valid claim and all
defined scores within the documented [-1, 1] range, the overall
percentage of the composed ESGMetrics equals exactly 0.4 times the
environmental percentage plus 0.3 times the social percentage plus 0.3
times the governance percentage, hence also lies within the half-point
tolerance of the metrics validator. -/
theorem c6_weighted_sum (now : ℚ) (rand : ℕ → ℚ) (claims : List Claim)
    (hvalid : ∃ c ∈ claims, isValidClaim c = true)
    (hbound : ∀ c ∈ claims, ∀ s : ℚ, c.score = some s → -1 ≤ s ∧ s ≤ 1) :
    (calculateESGMetrics now rand claims).overallPercentage =
      0.4 * (calculateESGMetrics now rand claims).environmentalScore +
      0.3 * (calculateESGMetrics now rand claims).socialScore +
      0.3 * (calculateESGMetrics now rand claims).governanceScore ∧
    |(calculateESGMetrics now rand claims).overallPercentage -
      (0.4 * (calculateESGMetrics now rand claims).environmentalScore +
       0.3 * (calculateESGMetrics now rand claims).socialScore +
       0.3 * (calculateESGMetrics now rand claims).governanceScore)| ≤ 0.5 := by
  obtain ⟨hg1, hg2⟩ := calcESG_guards claims hvalid
  have hwV : ∀ c ∈ claims.filter isValidClaim, 0 < jsOrQ c.confidence (1/2) := by
    intro c hc
    exact jsOrQ_pos_of_valid c (List.mem_filter.mp hc).2
  have hsV : ∀ c ∈ claims.filter isValidClaim,
      -1 ≤ (c.score.getD 0 : ℚ) ∧ (c.score.getD 0 : ℚ) ≤ 1 := by
    intro c hc
    obtain ⟨hmem, hv⟩ := List.mem_filter.mp hc
    obtain ⟨hsome, -⟩ := (isValidClaim_iff c).mp hv
    obtain ⟨s, hs⟩ := Option.isSome_iff_exists.mp hsome
    rw [hs]
    simpa using hbound c hmem s hs
  have he := pillarScore_bounds now (claims.filter isValidClaim) envKeywords hwV hsV
  have hso := pillarScore_bounds now (claims.filter isValidClaim) socKeywords hwV hsV
  have hgo := pillarScore_bounds now (claims.filter isValidClaim) govKeywords hwV hsV
  simp only [calculateESGMetrics, if_neg hg1, if_neg hg2, ESG_WEIGHTS]
  set e := calculatePillarScore now (claims.filter isValidClaim) envKeywords with hee
  set so := calculatePillarScore now (claims.filter isValidClaim) socKeywords with hss
  set go := calculatePillarScore now (claims.filter isValidClaim) govKeywords with hgg
  have hmain : normalizeScoreToPercentage (e * 0.4 + so * 0.3 + go * 0.3) =
      0.4 * normalizeScoreToPercentage e + 0.3 * normalizeScoreToPercentage so +
      0.3 * normalizeScoreToPercentage go := by
    rw [normalize_affine e he.1 he.2, normalize_affine so hso.1 hso.2,
      normalize_affine go hgo.1 hgo.2,
      normalize_affine (e * 0.4 + so * 0.3 + go * 0.3)
        (by nlinarith [he.1, he.2, hso.1, hso.2, hgo.1, hgo.2])
        (by nlinarith [he.1, he.2, hso.1, hso.2, hgo.1, hgo.2])]
    ring
  refine ⟨hmain, ?_⟩
  rw [hmain]
  simp only [sub_self, abs_zero]
  norm_num

/-- C6 witness: the single-claim climate list satisfies both hypotheses
and the weighted-sum identity. -/
theorem c6_witness :
    (∃ c ∈ [mkClimateClaim (1/5) (4/5)], isValidClaim c = true) ∧
    (∀ c ∈ [mkClimateClaim (1/5) (4/5)], ∀ s : ℚ,
      c.score = some s → -1 ≤ s ∧ s ≤ 1) ∧
    ((calculateESGMetrics 0 (constRand 0)
        [mkClimateClaim (1/5) (4/5)]).overallPercentage =
      0.4 * (calculateESGMetrics 0 (constRand 0)
        [mkClimateClaim (1/5) (4/5)]).environmentalScore +
      0.3 * (calculateESGMetrics 0 (constRand 0)
        [mkClimateClaim (1/5) (4/5)]).socialScore +
      0.3 * (calculateESGMetrics 0 (constRand 0)
        [mkClimateClaim (1/5) (4/5)]).governanceScore ∧
    |(calculateESGMetrics 0 (constRand 0)
        [mkClimateClaim (1/5) (4/5)]).overallPercentage -
      (0.4 * (calculateESGMetrics 0 (constRand 0)
        [mkClimateClaim (1/5) (4/5)]).environmentalScore +
       0.3 * (calculateESGMetrics 0 (constRand 0)
        [mkClimateClaim (1/5) (4/5)]).socialScore +
       0.3 * (calculateESGMetrics 0 (constRand 0)
        [mkClimateClaim (1/5) (4/5)]).governanceScore)| ≤ 0.5) := by
  have hvalid : ∃ c ∈ [mkClimateClaim (1/5) (4/5)], isValidClaim c = true := by
    refine ⟨mkClimateClaim (1/5) (4/5), List.mem_singleton.mpr rfl, ?_⟩
    rw [isValidClaim_iff]
    exact ⟨rfl, 4/5, rfl, by norm_num⟩
  have hbound : ∀ c ∈ [mkClimateClaim (1/5) (4/5)], ∀ s : ℚ,
      c.score = some s → -1 ≤ s ∧ s ≤ 1 := by
    intro c hc s hs
    rw [List.mem_singleton] at hc
    subst hc
    have : s = 1/5 := by
      have := hs.symm.trans (rfl : (mkClimateClaim (1/5) (4/5)).score =
        some (1/5))
      exact Option.some_inj.mp this
    subst this
    norm_num
  exact ⟨hvalid, hbound,
    c6_weighted_sum 0 (constRand 0) [mkClimateClaim (1/5) (4/5)] hvalid hbound⟩

/-- Helper: the sum of a constant map is the length times the value. -/
theorem listSumConst (l : List Claim) (x : ℝ) :
    (l.map fun _ => x).sum = l.length * x := by
  induction l with
  | nil => simp
  | cons a l ih => simp [ih]; ring

/-- C7 (amended): for claims each with a definite score and a definite
positive confidence, calculateWeightedScore equals the spec formula, the
sum of score times confidence times exp of minus days over 180 divided by
the matching weight sum, with 0 on the empty list where the weight sum
vanishes; the recency factor is 1 for a claim created at the clock
instant and never negative; and a nonempty list of claims all carrying
score s, confidence 1 and creation time now aggregates to s exactly. -/
theorem c7_aggregate (now t u : ℚ) (s : ℚ) (claims : List Claim)
    (h : ∀ c ∈ claims, c.score.isSome = true ∧
      ∃ cf, c.confidence = some cf ∧ 0 < cf) :
    calculateWeightedScore now claims = aggregateSpec now claims ∧
    calculateRecencyWeight t t = 1 ∧
    0 ≤ calculateRecencyWeight t u ∧
    ((claims ≠ [] ∧ ∀ c ∈ claims, c.score = some s ∧ c.confidence = some 1 ∧
        c.createdAt = now) →
      calculateWeightedScore now claims = (s : ℝ)) := by
  refine ⟨?_, ?_, ?_, ?_⟩
  · rcases List.eq_nil_or_concat claims with he | hne
    case _ =>
      subst he
      simp [calculateWeightedScore, aggregateSpec]
    case _ =>
      have hne2 : claims ≠ [] := by
        obtain ⟨l2, b, rfl⟩ := hne
        simp
      have hlen : ¬ claims.length = 0 := fun h0 => hne2 (List.length_eq_zero.mp h0)
      have hw_eq : ∀ c ∈ claims, claimWeight now c =
          ((c.confidence.getD 0 : ℚ) : ℝ) *
            Real.exp (-(daysSince now c.createdAt / 180)) := by
        intro c hc
        obtain ⟨-, cf, hcf, hpos⟩ := h c hc
        unfold claimWeight calculateRecencyWeight jsOrQ
        rw [hcf]
        simp [ne_of_gt hpos]
      have hterm : ∀ c ∈ claims,
          ((c.score.getD 0 : ℚ) : ℝ) * claimWeight now c =
          ((c.score.getD 0 : ℚ) : ℝ) * ((c.confidence.getD 0 : ℚ) : ℝ) *
            Real.exp (-(daysSince now c.createdAt / 180)) := by
        intro c hc
        rw [hw_eq c hc, mul_assoc]
      have hWpos : 0 < (claims.map fun c => claimWeight now c).sum := by
        apply List.sum_pos
        · intro x hx
          obtain ⟨c, hc, rfl⟩ := List.mem_map.mp hx
          obtain ⟨-, cf, hcf, hpos⟩ := h c hc
          have hjs : jsOrQ c.confidence (1/2) = cf := by
            rw [hcf]
            simp [jsOrQ, ne_of_gt hpos]
          unfold claimWeight
          rw [hjs]
          exact mul_pos (by exact_mod_cast hpos) (Real.exp_pos _)
        · intro h0
          exact hne2 (List.map_eq_nil_iff.mp h0)
      unfold calculateWeightedScore aggregateSpec
      rw [if_neg hlen, if_pos hWpos]
      rw [List.map_congr_left hterm, List.map_congr_left hw_eq]
      rw [if_neg (ne_of_gt (by
        rw [← List.map_congr_left hw_eq]
        exact hWpos))]
  · unfold calculateRecencyWeight daysSince
    rw [sub_self, zero_div, zero_div, neg_zero, Real.exp_zero]
  · exact le_of_lt (Real.exp_pos _)
  · rintro ⟨hne, hu⟩
    have hlen : ¬ claims.length = 0 := fun h0 => hne (List.length_eq_zero.mp h0)
    have hw1 : ∀ c ∈ claims, claimWeight now c = 1 := by
      intro c hc
      obtain ⟨-, hcf1, hct⟩ := hu c hc
      unfold claimWeight calculateRecencyWeight daysSince jsOrQ
      rw [hcf1, hct]
      rw [sub_self, zero_div, zero_div, neg_zero, Real.exp_zero]
      norm_num
    have hs1 : ∀ c ∈ claims,
        ((c.score.getD 0 : ℚ) : ℝ) * claimWeight now c = (s : ℝ) := by
      intro c hc
      obtain ⟨hsc, -, -⟩ := hu c hc
      rw [hw1 c hc, hsc]
      simp
    unfold calculateWeightedScore
    rw [if_neg hlen]
    rw [List.map_congr_left hs1, List.map_congr_left hw1]
    rw [listSumConst, listSumConst]
    have hn : ((claims.length : ℝ)) ≠ 0 := by
      rw [Nat.cast_ne_zero]
      exact hlen
    rw [if_pos (by
      rw [mul_one]
      have : 0 < claims.length := Nat.pos_of_ne_zero hlen
      exact_mod_cast this)]
    rw [mul_one]
    field_simp

/-- C7: the spec formula predicts aggregate 0 for a claim with score 1
and confidence present but 0 (its weight sum vanishes), yet the code
replaces the falsy confidence 0 by the default 0.5 and aggregates to 1. -/
theorem c7_counterexample :
    calculateWeightedScore 0 [zeroConfClaim] = 1 ∧
    aggregateSpec 0 [zeroConfClaim] = 0 ∧ (1 : ℝ) ≠ 0 := by
  refine ⟨?_, ?_, one_ne_zero⟩
  · unfold calculateWeightedScore claimWeight calculateRecencyWeight daysSince
    simp [zeroConfClaim, baseClaim, jsOrQ, Real.exp_zero]
  · unfold aggregateSpec daysSince
    simp [zeroConfClaim, baseClaim]

/-- C7 witness: a single claim with score one half, confidence 1,
created at the clock instant satisfies the hypothesis and all four
amended conclusions. -/
theorem c7_witness :
    (∀ c ∈ [uniformClaim], c.score.isSome = true ∧
      ∃ cf, c.confidence = some cf ∧ 0 < cf) ∧
    (calculateWeightedScore 0 [uniformClaim] = aggregateSpec 0 [uniformClaim] ∧
     calculateRecencyWeight 1 1 = 1 ∧
     0 ≤ calculateRecencyWeight 1 2 ∧
     (([uniformClaim] : List Claim) ≠ [] ∧ (∀ c ∈ [uniformClaim],
        c.score = some (1/2) ∧ c.confidence = some 1 ∧ c.createdAt = 0) →
      calculateWeightedScore 0 [uniformClaim] = ((1/2 : ℚ) : ℝ))) := by
  have h : ∀ c ∈ [uniformClaim], c.score.isSome = true ∧
      ∃ cf, c.confidence = some cf ∧ 0 < cf := by
    intro c hc
    rw [List.mem_singleton] at hc
    subst hc
    exact ⟨rfl, 1, rfl, one_pos⟩
  exact ⟨h, c7_aggregate 0 1 2 (1/2) [uniformClaim] h⟩
